import Mathlib

/-!
Verification of the AMEWS (Aadhaar Misuse Early-Warning System) risk
scoring and alert lifecycle logic.

The definitions below are a shallow embedding of the repository's code:
the React frontend pages (RiskAnalysisPage.js, DashboardPage.js,
AlertDetailPage.js, the alerts page, LoginPage.js) and the risk-score
calculation documented in README.md.  Components of the backend engine
that are not present in the repository (rule evaluator internals,
composite scorer fallback, baseline store, alert manager transitions)
are modelled from the specification, and each such definition says so
in its doc comment.
-/

namespace AMEWS

/-- Severity bands of a composite risk score, per the data model. -/
inductive Severity where
  | LOW
  | MEDIUM
  | HIGH
  | CRITICAL
deriving DecidableEq, Repr

/-- Severity mapping from README.md lines 437-440:
CRITICAL at 80 and above, HIGH at 60, MEDIUM at 30, else LOW. -/
def severityOf (c : ℚ) : Severity :=
  if 80 ≤ c then .CRITICAL
  else if 60 ≤ c then .HIGH
  else if 30 ≤ c then .MEDIUM
  else .LOW

/-- Progress-bar color for the composite score in
RiskAnalysisPage.js lines 288-290: red at 80, amber at 60, blue at 30,
else green. -/
def riskBarColor (c : ℚ) : String :=
  if 80 ≤ c then "#ef4444"
  else if 60 ≤ c then "#f59e0b"
  else if 30 ≤ c then "#3b82f6"
  else "#10b981"

/-- Region heatmap color in DashboardPage.js lines 118-123
(RegionHeatmap.getRiskColor): red at 70, amber at 50, blue at 30,
else green. -/
def getRiskColor (score : ℚ) : String :=
  if 70 ≤ score then "#ef4444"
  else if 50 ≤ score then "#f59e0b"
  else if 30 ≤ score then "#3b82f6"
  else "#10b981"

/-- Rank of a severity band, for stating monotonicity. -/
def sevRank : Severity → ℕ
  | .LOW => 0
  | .MEDIUM => 1
  | .HIGH => 2
  | .CRITICAL => 3

/-- A behavioral aggregate for one entity over a time window, carrying
the inputs the seven detection rules read (spec data model; field
thresholds from the README rule table lines 411-419). -/
structure BehavioralAggregate where
  eventRate : ℚ
  distinctRegions : ℕ
  otpFallbackShare : ℚ
  avgRetries : ℚ
  offHoursShare : ℚ
  failureShare : ℚ
  medianSessionMs : ℚ

/-- A weighted detection rule over a behavioral aggregate. -/
structure DetectionRule where
  id : String
  weight : ℕ
  triggered : BehavioralAggregate → Bool

/-- Modelled from the spec: the backend rule evaluator is not in the
repository; the seven rules and weights follow README.md lines 411-419
(HIGH_AUTH_FREQUENCY over 20 events/hour weight 15, geographic velocity
over 2 states/hour weight 18, OTP fallback over 30 percent weight 12,
average retries over 2 weight 10, off-hours share over 40 percent
weight 15, failure share over 30 percent weight 12, median session
under 200 ms or over 30 s weight 8). -/
def detectionRules : List DetectionRule :=
  [ ⟨"HIGH_AUTH_FREQUENCY", 15, fun a => decide (20 < a.eventRate)⟩,
    ⟨"GEOGRAPHIC_VELOCITY_ANOMALY", 18, fun a => decide (2 < a.distinctRegions)⟩,
    ⟨"OTP_FALLBACK_ABUSE", 12, fun a => decide ((30 : ℚ)/100 < a.otpFallbackShare)⟩,
    ⟨"ABNORMAL_RETRY_PATTERN", 10, fun a => decide (2 < a.avgRetries)⟩,
    ⟨"OFF_HOURS_ACTIVITY", 15, fun a => decide ((40 : ℚ)/100 < a.offHoursShare)⟩,
    ⟨"HIGH_FAILURE_RATE", 12, fun a => decide ((30 : ℚ)/100 < a.failureShare)⟩,
    ⟨"SESSION_DURATION_ANOMALY", 8,
      fun a => decide (a.medianSessionMs < 200 ∨ 30000 < a.medianSessionMs)⟩ ]

/-- Sum of the weights of the rules triggered by an aggregate. -/
def tw (agg : BehavioralAggregate) : ℕ :=
  ((detectionRules.filter (fun r => r.triggered agg)).map DetectionRule.weight).sum

/-- Modelled from the spec: rule score is the triggered-weight sum
capped at 100 (spec section 4.2). -/
def ruleScore (agg : BehavioralAggregate) : ℕ :=
  min 100 (tw agg)

/-- Composite risk score from README.md lines 430-434: the triggered
rule weight sum carries 60 percent of the weight and the anomaly score
on the 0-100 scale carries 40 percent. -/
def finalScore (agg : BehavioralAggregate) (ml100 : ℚ) : ℚ :=
  (6 : ℚ)/10 * (tw agg : ℚ) + (4 : ℚ)/10 * ml100

/-- Modelled from the spec: the anomaly scorer outputs a score in
the unit interval, normalized to the 0-100 scale for fusion
(spec section 4.3). -/
def anomaly100 (s : ℚ) : ℚ := 100 * s

/-- Modelled from the spec: scores are normalized to the unit interval
for the confidence computation (spec section 4.4). -/
def normalizeScore (x : ℚ) : ℚ := x / 100

/-- Modelled from the spec: confidence is one minus the absolute
difference of the normalized rule and anomaly scores, clamped to the
unit interval (spec section 4.4); the repository only renders
confidence_score (alerts page lines 413-424). -/
def confidenceOf (r a : ℚ) : ℚ :=
  max 0 (min 1 (1 - |normalizeScore r - normalizeScore a|))

/-- Alert lifecycle status, per the data model. -/
inductive AlertStatus where
  | ACTIVE
  | ACKNOWLEDGED
  | RESOLVED
deriving DecidableEq, Repr

/-- Position of a status along the forward chain
ACTIVE, ACKNOWLEDGED, RESOLVED. -/
def statusRank : AlertStatus → ℕ
  | .ACTIVE => 0
  | .ACKNOWLEDGED => 1
  | .RESOLVED => 2

/-- Typed error for a rejected status transition. -/
inductive TransitionError where
  | illegalTransition (src tgt : AlertStatus)
deriving DecidableEq, Repr

/-- Modelled from the spec: the backend alert manager is not in the
repository; status transitions are accepted only strictly forward along
ACTIVE, ACKNOWLEDGED, RESOLVED and anything else is rejected with a
typed error (spec sections 4.5 and 9). -/
def updateStatus (s t : AlertStatus) : Except TransitionError AlertStatus :=
  if statusRank s < statusRank t then .ok t
  else .error (.illegalTransition s t)

/-- Status targets the detail page offers from a given status
(AlertDetailPage.js lines 100-119): Acknowledge only while ACTIVE,
Mark Resolved while not RESOLVED, nothing once RESOLVED. -/
def offeredTargets : AlertStatus → List AlertStatus
  | .ACTIVE => [.ACKNOWLEDGED, .RESOLVED]
  | .ACKNOWLEDGED => [.RESOLVED]
  | .RESOLVED => []

/-- Result of one requested status update: an accepted transition moves
to the new status, a rejected one leaves the status unchanged. -/
def applyRequest (s t : AlertStatus) : AlertStatus :=
  match updateStatus s t with
  | .ok u => u
  | .error _ => s

/-- Apply a sequence of requested status updates in order. -/
def runRequests (s : AlertStatus) (reqs : List AlertStatus) : AlertStatus :=
  reqs.foldl applyRequest s

/-- Analyst feedback choices, per the data model and the feedback
dialog of the alerts page (lines 537-539). -/
inductive FeedbackType where
  | FALSE_POSITIVE
  | CONFIRMED_THREAT
  | PARTIALLY_RELEVANT
deriving DecidableEq, Repr

/-- The lifecycle state of one alert: its status and the feedback
attached so far, if any. -/
structure AlertState where
  status : AlertStatus
  feedback : Option FeedbackType
deriving DecidableEq, Repr

/-- The enabling condition of the feedback buttons on the alerts page,
lines 457 and 469: disabled when the alert is RESOLVED or already has
feedback. -/
def canSubmitFeedback (a : AlertState) : Bool :=
  !(a.status == .RESOLVED) && a.feedback == none

/-- An event in an alert's lifecycle: a requested status update or a
feedback submission. -/
inductive AlertEvent where
  | setStatus (t : AlertStatus)
  | giveFeedback (f : FeedbackType)

/-- One lifecycle step: status updates go through updateStatus,
feedback attaches only when the feedback buttons are enabled. -/
def stepAlert (a : AlertState) : AlertEvent → AlertState
  | .setStatus t => { a with status := applyRequest a.status t }
  | .giveFeedback f =>
      if canSubmitFeedback a then { a with feedback := some f } else a

/-- Run a sequence of lifecycle events from a state. -/
def runAlert (a : AlertState) (evs : List AlertEvent) : AlertState :=
  evs.foldl stepAlert a

/-- Modelled from the spec: only evaluations at or above the MEDIUM
band produce an alert (spec section 4.5); MEDIUM starts at composite
30 (README.md line 439). -/
def mediumThreshold : ℚ := 30

/-- Outcome of one risk evaluation: composite score, confidence, and
whether an alert is created. -/
structure EvalResult where
  composite : ℚ
  confidence : ℚ
  alertCreated : Bool
deriving Repr

/-- Full evaluation when the anomaly scorer responded: composite fuses
rule and anomaly signals per README.md lines 430-434, confidence
measures their agreement, an alert is created at the MEDIUM band. -/
def evalWithAnomaly (agg : BehavioralAggregate) (s : ℚ) : EvalResult :=
  let c := finalScore agg (anomaly100 s)
  { composite := c,
    confidence := confidenceOf (ruleScore agg : ℚ) (anomaly100 s),
    alertCreated := decide (mediumThreshold ≤ c) }

/-- Modelled from the spec: when the anomaly scorer is unavailable or
times out, the evaluation still completes with the rule score alone as
composite, the confidence capped at the reduced ceiling 0.6, and alert
creation decided from the rule score alone (spec sections 4.4 and 5,
scenario D). The argument c is the confidence the evaluation would
otherwise have carried. -/
def evalRuleOnly (agg : BehavioralAggregate) (c : ℚ) : EvalResult :=
  { composite := (ruleScore agg : ℚ),
    confidence := min c ((6 : ℚ)/10),
    alertCreated := decide (mediumThreshold ≤ (ruleScore agg : ℚ)) }

/-- The aggregate of spec scenario B: 22 events/hour across 3 regions,
35 percent OTP fallback, average 3 retries, nothing else unusual.
Four rules trigger for a weight sum of 55. -/
def scenarioAggB : BehavioralAggregate :=
  { eventRate := 22, distinctRegions := 3, otpFallbackShare := (35 : ℚ)/100,
    avgRetries := 3, offHoursShare := 0, failureShare := 0, medianSessionMs := 5000 }

/-- Readiness answer of the baseline store for one context key. -/
inductive BaselineAnswer where
  | NotReady
  | Ready
deriving DecidableEq, Repr

/-- Configuration of the baseline store: rolling window length,
minimum sample count and minimum age for readiness. -/
structure BaselineConfig where
  windowLen : ℚ
  minSamples : ℕ
  minAge : ℚ

/-- Whether a sample timestamp lies inside the rolling window ending
at the query time. -/
def inWindow (cfg : BaselineConfig) (now u : ℚ) : Bool :=
  decide (now - cfg.windowLen ≤ u) && decide (u ≤ now)

/-- Modelled from the spec: the baseline store is not in the
repository; a key's history is the list of its sample timestamps, a
query at time now counts only samples inside the rolling window, and
the key is READY exactly when both the windowed sample count and the
key's age reach the configured minima (spec section 4.1). A key with
no samples is always NotReady. -/
def getBaseline (cfg : BaselineConfig) (hist : List ℚ) (now : ℚ) : BaselineAnswer :=
  match hist with
  | [] => .NotReady
  | t :: ts =>
      let first := ts.foldl min t
      let recent := (t :: ts).filter (inWindow cfg now)
      if cfg.minSamples ≤ recent.length ∧ cfg.minAge ≤ now - first then .Ready
      else .NotReady

/-- The analyst confidence value the alerts page sends with feedback
(line 197): the star rating divided by 5, where a cleared rating is
null and JavaScript coerces null to 0 in the division. -/
def analystConfidenceSent (rating : Option ℕ) : ℚ :=
  ((rating.getD 0 : ℕ) : ℚ) / 5

/-- The phone field sanitizer of LoginPage.js line 252: strip every
non-digit character, then keep at most the first 10 characters. -/
def sanitizePhone (s : String) : String :=
  String.mk ((s.toList.filter Char.isDigit).take 10)

/-- The OTP field sanitizer of LoginPage.js line 338: strip every
non-digit character, then keep at most the first 6 characters. -/
def sanitizeOtp (s : String) : String :=
  String.mk ((s.toList.filter Char.isDigit).take 6)

/-- The demo phone numbers offered by LoginPage.js lines 34-40; the
quick-fill buttons set the phone field to one of these directly. -/
def demoPhones : List String :=
  ["1234567890", "9900000001", "9900000002", "9900000003", "9900000004"]

/-- The guard before sendOTP (LoginPage.js lines 56 and 269): the
handler returns early and the button is disabled unless the phone has
exactly 10 characters. -/
def sendOtpGuard (phone : String) : Bool :=
  phone.length == 10

/-- The guard before verifyOTP (LoginPage.js lines 83 and 354): the
handler returns early and the button is disabled unless the OTP has
exactly 6 characters. -/
def verifyOtpGuard (otp : String) : Bool :=
  otp.length == 6

/-- The values the phone state can hold in LoginPage.js: the empty
initial value, the sanitizer's output on any raw input, or a demo
phone picked by a quick-fill button. -/
inductive PhoneReachable : String → Prop
  | init : PhoneReachable ""
  | typed (raw : String) : PhoneReachable (sanitizePhone raw)
  | demo (p : String) (h : p ∈ demoPhones) : PhoneReachable p

/-- The values the OTP state can hold in LoginPage.js: the empty
initial value (also restored by Back) or the sanitizer's output on any
raw input. -/
inductive OtpReachable : String → Prop
  | init : OtpReachable ""
  | typed (raw : String) : OtpReachable (sanitizeOtp raw)

/-- The triggered-weight sum never exceeds the total weight 90 of the
seven rules. -/
lemma tw_le_90 (agg : BehavioralAggregate) : tw agg ≤ 90 := by
  have hsub : List.Sublist
      ((detectionRules.filter (fun r => r.triggered agg)).map DetectionRule.weight)
      (detectionRules.map DetectionRule.weight) :=
    (List.filter_sublist _).map _
  have h := hsub.sum_le_sum (fun a _ => Nat.zero_le a)
  simpa [tw] using h

/-- The cap at 100 never binds: the rule score always equals the
uncapped triggered-weight sum. -/
lemma ruleScore_eq_tw (agg : BehavioralAggregate) : ruleScore agg = tw agg :=
  min_eq_right (le_trans (tw_le_90 agg) (by norm_num))

/-- A requested status update never lowers the status rank. -/
lemma statusRank_le_applyRequest (s t : AlertStatus) :
    statusRank s ≤ statusRank (applyRequest s t) := by
  unfold applyRequest updateStatus
  split_ifs with h
  · exact le_of_lt h
  · exact le_rfl

/-- A RESOLVED alert stays RESOLVED under any requested update. -/
lemma applyRequest_resolved (t : AlertStatus) :
    applyRequest .RESOLVED t = .RESOLVED := by
  cases t <;> rfl

/-- Over any request sequence the status rank never decreases. -/
lemma runRequests_rank (s : AlertStatus) (reqs : List AlertStatus) :
    statusRank s ≤ statusRank (runRequests s reqs) := by
  induction reqs generalizing s with
  | nil => exact le_rfl
  | cons t ts ih =>
      exact le_trans (statusRank_le_applyRequest s t) (ih (applyRequest s t))

/-- A RESOLVED alert stays RESOLVED under any request sequence. -/
lemma runRequests_resolved (reqs : List AlertStatus) :
    runRequests .RESOLVED reqs = .RESOLVED := by
  induction reqs with
  | nil => rfl
  | cons t ts ih => simpa [runRequests, applyRequest_resolved] using ih

/-- Feedback already attached survives any single lifecycle event. -/
lemma stepAlert_feedback_some (a : AlertState) (g : FeedbackType)
    (h : a.feedback = some g) : ∀ ev, (stepAlert a ev).feedback = some g := by
  intro ev
  cases ev with
  | setStatus t => simp [stepAlert, h]
  | giveFeedback f2 => simp [stepAlert, canSubmitFeedback, h]

/-- Feedback already attached survives any event sequence. -/
lemma runAlert_feedback_some (a : AlertState) (evs : List AlertEvent)
    (g : FeedbackType) (h : a.feedback = some g) :
    (runAlert a evs).feedback = some g := by
  induction evs generalizing a with
  | nil => exact h
  | cons ev evs ih =>
      exact ih (stepAlert a ev) (stepAlert_feedback_some a g h ev)

/-- From a RESOLVED alert, one event changes neither status nor
feedback. -/
lemma stepAlert_resolved (a : AlertState) (h : a.status = .RESOLVED) :
    ∀ ev, (stepAlert a ev).status = .RESOLVED ∧
      (stepAlert a ev).feedback = a.feedback := by
  intro ev
  cases ev with
  | setStatus t => simp [stepAlert, h, applyRequest_resolved]
  | giveFeedback f => simp [stepAlert, canSubmitFeedback, h]

/-- From a RESOLVED alert, no event sequence changes status or
feedback. -/
lemma runAlert_resolved (a : AlertState) (evs : List AlertEvent)
    (h : a.status = .RESOLVED) :
    (runAlert a evs).status = .RESOLVED ∧
      (runAlert a evs).feedback = a.feedback := by
  induction evs generalizing a with
  | nil => exact ⟨h, rfl⟩
  | cons ev evs ih =>
      obtain ⟨h1, h2⟩ := stepAlert_resolved a h ev
      obtain ⟨h3, h4⟩ := ih (stepAlert a ev) h1
      exact ⟨h3, h4.trans h2⟩

/-- Sanitized phone input is at most 10 characters, all decimal
digits. -/
lemma sanitizePhone_spec (raw : String) :
    (sanitizePhone raw).length ≤ 10 ∧
    ∀ c ∈ (sanitizePhone raw).toList, c.isDigit := by
  constructor
  · show (String.mk ((raw.toList.filter Char.isDigit).take 10)).length ≤ 10
    simp [String.length]
  · intro c hc
    have hc2 : c ∈ (raw.toList.filter Char.isDigit).take 10 := hc
    have hmem := List.mem_of_mem_take hc2
    exact (List.mem_filter.mp hmem).2

/-- Sanitized OTP input is at most 6 characters, all decimal digits. -/
lemma sanitizeOtp_spec (raw : String) :
    (sanitizeOtp raw).length ≤ 6 ∧
    ∀ c ∈ (sanitizeOtp raw).toList, c.isDigit := by
  constructor
  · show (String.mk ((raw.toList.filter Char.isDigit).take 6)).length ≤ 6
    simp [String.length]
  · intro c hc
    have hc2 : c ∈ (raw.toList.filter Char.isDigit).take 6 := hc
    have hmem := List.mem_of_mem_take hc2
    exact (List.mem_filter.mp hmem).2

/-- Claim C1, counterexample: the program does not use the same severity
cut points everywhere a score is mapped to a band. At composite value
70 the risk analysis page colors the band amber (HIGH, cut points
80/60/30) while the dashboard heatmap colors the same value red
(its top band, cut points 70/50/30). -/
theorem severity_cutpoints_not_uniform :
    getRiskColor 70 ≠ riskBarColor 70 ∧
    getRiskColor 70 = "#ef4444" ∧ riskBarColor 70 = "#f59e0b" := by
  have h1 : getRiskColor 70 = "#ef4444" := by norm_num [getRiskColor]
  have h2 : riskBarColor 70 = "#f59e0b" := by norm_num [riskBarColor]
  refine ⟨?_, h1, h2⟩
  rw [h1, h2]
  decide

/-- Claim C1, amended: the severity band mapping used by the README and
the risk analysis page has cut points 80/60/30, is a pure monotonic
function of the composite with no overlapping bands, and the risk
analysis page's band coloring follows exactly those bands; the
dashboard region heatmap however maps scores to the same band colors
with the different cut points 70/50/30. -/
theorem severity_band_mapping_amended :
    (∀ c d : ℚ, c ≤ d → sevRank (severityOf c) ≤ sevRank (severityOf d)) ∧
    (∀ c : ℚ, (severityOf c = .CRITICAL ↔ 80 ≤ c) ∧
      (severityOf c = .HIGH ↔ 60 ≤ c ∧ c < 80) ∧
      (severityOf c = .MEDIUM ↔ 30 ≤ c ∧ c < 60) ∧
      (severityOf c = .LOW ↔ c < 30)) ∧
    (∀ c : ℚ, riskBarColor c =
      (match severityOf c with
        | .CRITICAL => "#ef4444" | .HIGH => "#f59e0b"
        | .MEDIUM => "#3b82f6" | .LOW => "#10b981")) ∧
    (∀ c : ℚ, (getRiskColor c = "#ef4444" ↔ 70 ≤ c) ∧
      (getRiskColor c = "#f59e0b" ↔ 50 ≤ c ∧ c < 70)) := by
  have hne1 : ("#ef4444" : String) ≠ "#f59e0b" := by decide
  have hne2 : ("#ef4444" : String) ≠ "#3b82f6" := by decide
  have hne3 : ("#ef4444" : String) ≠ "#10b981" := by decide
  have hne4 : ("#f59e0b" : String) ≠ "#3b82f6" := by decide
  have hne5 : ("#f59e0b" : String) ≠ "#10b981" := by decide
  have hne6 : ("#3b82f6" : String) ≠ "#10b981" := by decide
  refine ⟨?_, ?_, ?_, ?_⟩
  · intro c d hcd
    unfold severityOf
    split_ifs <;> simp [sevRank] <;> linarith
  · intro c
    unfold severityOf
    split_ifs with h1 h2 h3 <;>
      refine ⟨?_, ?_, ?_, ?_⟩ <;> simp <;>
      first | linarith | (intro h; linarith) | (constructor <;> linarith)
  · intro c
    unfold severityOf riskBarColor
    split_ifs <;> rfl
  · intro c
    unfold getRiskColor
    split_ifs with h1 h2 h3 <;>
      refine ⟨?_, ?_⟩ <;>
      simp [hne1, hne2, hne3, hne4, hne5, hne6, hne1.symm, hne2.symm, hne3.symm,
        hne4.symm, hne5.symm, hne6.symm] <;>
      first | linarith | (intro h; linarith) | (constructor <;> linarith)

/-- Witness for the amended claim C1 at concrete inputs: monotonicity
from 30 to 75, and the dashboard red band holding at 70. -/
theorem severity_band_mapping_amended_witness :
    sevRank (severityOf 30) ≤ sevRank (severityOf 75) ∧
    getRiskColor 70 = "#ef4444" := by
  constructor
  · exact severity_band_mapping_amended.1 30 75 (by norm_num)
  · exact (severity_band_mapping_amended.2.2.2 70).1.mpr (by norm_num)

/-- Claim C2: for every behavioral aggregate the rule score is the
triggered-weight sum capped at 100, lies in the 0 to 100 range, the
seven weights sum to 90, and therefore the cap never binds. -/
theorem rule_score_capped_sum (agg : BehavioralAggregate) :
    ruleScore agg = min 100 (tw agg) ∧
    ruleScore agg ≤ 100 ∧
    (detectionRules.map DetectionRule.weight).sum = 90 ∧
    ruleScore agg = tw agg :=
  ⟨rfl, min_le_left _ _, rfl, ruleScore_eq_tw agg⟩

/-- Claim C3: whenever both the rule evaluator and the anomaly scorer
produce a result, the composite equals 0.6 times the rule score plus
0.4 times the anomaly score on the 0-100 scale. -/
theorem composite_weighted_fusion (agg : BehavioralAggregate) (s : ℚ) :
    finalScore agg (anomaly100 s) =
      (6 : ℚ)/10 * (ruleScore agg : ℚ) + (4 : ℚ)/10 * anomaly100 s := by
  rw [finalScore, ruleScore_eq_tw agg]

/-- Claim C4: confidence is 1 minus the absolute difference of the
normalized rule and anomaly scores clamped to the unit interval; it
always lies in the unit interval, equals 1 when the normalized signals
agree, and never increases as they diverge. -/
theorem confidence_agreement (r a : ℚ) :
    (0 ≤ confidenceOf r a ∧ confidenceOf r a ≤ 1) ∧
    (normalizeScore r = normalizeScore a → confidenceOf r a = 1) ∧
    (∀ q b : ℚ,
      |normalizeScore r - normalizeScore a| ≤ |normalizeScore q - normalizeScore b| →
      confidenceOf q b ≤ confidenceOf r a) := by
  refine ⟨⟨le_max_left _ _, max_le (by norm_num) (min_le_left _ _)⟩, ?_, ?_⟩
  · intro h
    simp [confidenceOf, h]
  · intro q b hle
    unfold confidenceOf
    exact max_le_max le_rfl (min_le_min le_rfl (by linarith))

/-- Witness for claim C4 at equal concrete signals: full confidence. -/
theorem confidence_agreement_witness : confidenceOf 50 50 = 1 :=
  (confidence_agreement 50 50).2.1 rfl

/-- Claim C5: status updates succeed only strictly forward along
ACTIVE, ACKNOWLEDGED, RESOLVED; a backward or equal request is rejected
with the typed illegal-transition error; RESOLVED is terminal; the
detail page only offers legal forward transitions; and over every
request sequence the status rank never decreases while RESOLVED is
absorbing. -/
theorem alert_status_forward_only :
    (∀ s t u : AlertStatus, updateStatus s t = .ok u →
      u = t ∧ statusRank s < statusRank t) ∧
    (∀ s t : AlertStatus, statusRank t ≤ statusRank s →
      updateStatus s t = .error (.illegalTransition s t)) ∧
    (∀ t : AlertStatus,
      updateStatus .RESOLVED t = .error (.illegalTransition .RESOLVED t)) ∧
    (∀ s t : AlertStatus, t ∈ offeredTargets s → updateStatus s t = .ok t) ∧
    (∀ (s : AlertStatus) (reqs : List AlertStatus),
      statusRank s ≤ statusRank (runRequests s reqs)) ∧
    (∀ reqs : List AlertStatus, runRequests .RESOLVED reqs = .RESOLVED) := by
  refine ⟨?_, ?_, ?_, ?_, runRequests_rank, runRequests_resolved⟩
  · intro s t u h
    cases s <;> cases t <;> simp_all [updateStatus, statusRank]
  · intro s t h
    cases s <;> cases t <;> simp_all [updateStatus, statusRank]
  · intro t
    cases t <;> rfl
  · intro s t h
    cases s <;> cases t <;> simp_all [updateStatus, statusRank, offeredTargets]

/-- Witness for claim C5 at concrete transitions: acknowledging an
active alert succeeds, reactivating a resolved alert is rejected with
the typed error. -/
theorem alert_status_forward_only_witness :
    updateStatus .ACTIVE .ACKNOWLEDGED = .ok .ACKNOWLEDGED ∧
    updateStatus .RESOLVED .ACTIVE =
      .error (.illegalTransition .RESOLVED .ACTIVE) :=
  ⟨alert_status_forward_only.2.2.2.1 .ACTIVE .ACKNOWLEDGED (by simp [offeredTargets]),
   alert_status_forward_only.2.2.1 .ACTIVE⟩

/-- Claim C6: feedback can change an alert only while it is not
RESOLVED and has no feedback yet; submitting against a RESOLVED alert
or one with feedback is a no-op; once feedback is set it persists over
every later event sequence; and once RESOLVED the feedback can never
change again. -/
theorem feedback_once_not_resolved :
    (∀ (a : AlertState) (f : FeedbackType),
      stepAlert a (.giveFeedback f) ≠ a →
        a.status ≠ .RESOLVED ∧ a.feedback = none ∧
        stepAlert a (.giveFeedback f) = { a with feedback := some f }) ∧
    (∀ (a : AlertState) (f : FeedbackType), a.status = .RESOLVED →
      stepAlert a (.giveFeedback f) = a) ∧
    (∀ (a : AlertState) (evs : List AlertEvent) (g : FeedbackType),
      a.feedback = some g → (runAlert a evs).feedback = some g) ∧
    (∀ (a : AlertState) (evs : List AlertEvent), a.status = .RESOLVED →
      (runAlert a evs).feedback = a.feedback) := by
  refine ⟨?_, ?_, runAlert_feedback_some,
    fun a evs h => (runAlert_resolved a evs h).2⟩
  · intro a f h
    by_cases hc : canSubmitFeedback a = true
    · have h1 : ¬(a.status == .RESOLVED) = true ∧ (a.feedback == none) = true := by
        simpa [canSubmitFeedback] using hc
      refine ⟨by simpa using h1.1, by simpa using h1.2, by simp [stepAlert, hc]⟩
    · exact absurd (by simp [stepAlert, hc]) h
  · intro a f h
    simp [stepAlert, canSubmitFeedback, h]

/-- Witness for claim C6 at concrete states: existing feedback survives
a second submission attempt, and a RESOLVED alert ignores feedback. -/
theorem feedback_once_not_resolved_witness :
    (runAlert ⟨.ACTIVE, some .FALSE_POSITIVE⟩
      [.giveFeedback .CONFIRMED_THREAT]).feedback = some .FALSE_POSITIVE ∧
    stepAlert ⟨.RESOLVED, none⟩ (.giveFeedback .CONFIRMED_THREAT) =
      ⟨.RESOLVED, none⟩ :=
  ⟨feedback_once_not_resolved.2.2.1 ⟨.ACTIVE, some .FALSE_POSITIVE⟩
      [.giveFeedback .CONFIRMED_THREAT] .FALSE_POSITIVE rfl,
   feedback_once_not_resolved.2.1 ⟨.RESOLVED, none⟩ .CONFIRMED_THREAT rfl⟩

/-- Claim C7: when the anomaly scorer is unavailable the evaluation
still completes with the rule score alone as composite, the confidence
at or below the reduced ceiling 0.6, and an alert still created when
the rule score alone reaches the alerting band. -/
theorem anomaly_fallback_rule_only (agg : BehavioralAggregate) (c : ℚ) :
    (evalRuleOnly agg c).composite = (ruleScore agg : ℚ) ∧
    (evalRuleOnly agg c).confidence ≤ (6 : ℚ)/10 ∧
    (mediumThreshold ≤ (ruleScore agg : ℚ) →
      (evalRuleOnly agg c).alertCreated = true) := by
  refine ⟨rfl, min_le_right _ _, ?_⟩
  intro h
  simp [evalRuleOnly, h]

/-- Witness for claim C7 on the scenario B aggregate, whose rule score
55 alone crosses the MEDIUM band: the fallback still creates an
alert. -/
theorem anomaly_fallback_rule_only_witness :
    (evalRuleOnly scenarioAggB 1).composite = (ruleScore scenarioAggB : ℚ) ∧
    (evalRuleOnly scenarioAggB 1).alertCreated = true := by
  have h55 : ruleScore scenarioAggB = 55 := by
    norm_num [ruleScore, tw, detectionRules, scenarioAggB, List.filter_cons]
  refine ⟨(anomaly_fallback_rule_only scenarioAggB 1).1,
    (anomaly_fallback_rule_only scenarioAggB 1).2.2 ?_⟩
  rw [h55, mediumThreshold]
  norm_num

/-- Claim C8: a context key with zero samples is always NotReady, a key
whose samples have all aged out of the rolling window is NotReady no
matter how large its age grows, and readiness holds exactly when both
the windowed sample count and the age reach the configured minima. -/
theorem baseline_readiness (cfg : BaselineConfig) (now : ℚ) :
    (getBaseline cfg [] now = .NotReady) ∧
    (∀ hist : List ℚ, 1 ≤ cfg.minSamples →
      (∀ u ∈ hist, u < now - cfg.windowLen) →
      getBaseline cfg hist now = .NotReady) ∧
    (∀ (t : ℚ) (ts : List ℚ),
      getBaseline cfg (t :: ts) now = .Ready ↔
        (cfg.minSamples ≤ ((t :: ts).filter (inWindow cfg now)).length ∧
          cfg.minAge ≤ now - ts.foldl min t)) := by
  refine ⟨rfl, ?_, ?_⟩
  · intro hist hmin hstale
    cases hist with
    | nil => rfl
    | cons t ts =>
      have hnil : (t :: ts).filter (inWindow cfg now) = [] := by
        apply List.filter_eq_nil_iff.mpr
        intro u hu
        have hu2 := hstale u hu
        simp only [inWindow, Bool.and_eq_true, decide_eq_true_eq]
        intro hcon
        exact absurd hcon.1 (by linarith)
      simp only [getBaseline, hnil]
      rw [if_neg]
      intro hcon
      have hlen := hcon.1
      simp only [List.length_nil] at hlen
      omega
  · intro t ts
    simp only [getBaseline]
    split_ifs with h
    · simp [h]
    · simp [h]

/-- Witness for claim C8 on concrete histories: an empty key at any
time, and an aged-out 5-sample key long after its last sample, both
answer NotReady. -/
theorem baseline_readiness_witness :
    getBaseline ⟨14, 5, 14⟩ [] 20 = .NotReady ∧
    getBaseline ⟨14, 5, 14⟩ [0, 1, 2, 3, 4] 100 = .NotReady := by
  constructor
  · exact (baseline_readiness ⟨14, 5, 14⟩ 20).1
  · refine (baseline_readiness ⟨14, 5, 14⟩ 100).2.1 [0, 1, 2, 3, 4] (by norm_num) ?_
    intro u hu
    fin_cases hu <;> norm_num

/-- Claim C9: the analyst confidence sent with feedback is the star
rating divided by 5, and for every rating the widget can produce (at
most 5 stars, a cleared rating coerced to 0) it lies in the unit
interval. -/
theorem analyst_confidence_bounds (rating : Option ℕ)
    (h : ∀ n, rating = some n → n ≤ 5) :
    analystConfidenceSent rating = ((rating.getD 0 : ℕ) : ℚ) / 5 ∧
    0 ≤ analystConfidenceSent rating ∧ analystConfidenceSent rating ≤ 1 := by
  have hle : rating.getD 0 ≤ 5 := by
    cases rating with
    | none => simp
    | some n => simpa using h n rfl
  refine ⟨rfl, ?_, ?_⟩
  · unfold analystConfidenceSent
    positivity
  · unfold analystConfidenceSent
    rw [div_le_one (by norm_num)]
    exact_mod_cast le_trans (Nat.cast_le.mpr hle) (by norm_num)

/-- Witness for claim C9 at concrete ratings: five stars give
confidence 1 and a cleared rating gives 0. -/
theorem analyst_confidence_bounds_witness :
    analystConfidenceSent (some 5) = 1 ∧ analystConfidenceSent none = 0 := by
  constructor
  · have h := (analyst_confidence_bounds (some 5)
      (by intro n hn; injection hn with hn; omega)).1
    rw [h]
    norm_num
  · have h := (analyst_confidence_bounds none (by intro n hn; cases hn)).1
    rw [h]
    norm_num

/-- Claim C10: the phone sanitizer keeps only digits and truncates to
10; every reachable phone value passing the sendOTP guard is exactly
10 decimal digits; every reachable OTP value passing the verifyOTP
guard is exactly 6 decimal digits. -/
theorem login_guards_wellformed :
    (∀ raw : String, (sanitizePhone raw).length ≤ 10 ∧
      ∀ c ∈ (sanitizePhone raw).toList, c.isDigit) ∧
    (∀ p : String, PhoneReachable p → sendOtpGuard p = true →
      p.length = 10 ∧ ∀ c ∈ p.toList, c.isDigit) ∧
    (∀ o : String, OtpReachable o → verifyOtpGuard o = true →
      o.length = 6 ∧ ∀ c ∈ o.toList, c.isDigit) := by
  refine ⟨sanitizePhone_spec, ?_, ?_⟩
  · intro p hp hg
    have hlen : p.length = 10 := by simpa [sendOtpGuard] using hg
    refine ⟨hlen, ?_⟩
    cases hp with
    | init => simp at hlen
    | typed raw => exact (sanitizePhone_spec raw).2
    | demo p h =>
        fin_cases h <;> intro c hc <;> fin_cases hc <;> decide
  · intro o ho hg
    have hlen : o.length = 6 := by simpa [verifyOtpGuard] using hg
    refine ⟨hlen, ?_⟩
    cases ho with
    | init => simp at hlen
    | typed raw => exact (sanitizeOtp_spec raw).2

/-- Witness for claim C10 at concrete inputs: a demo phone passes the
guard with 10 digits, and a sanitized OTP input passes the guard with
6 digits. -/
theorem login_guards_wellformed_witness :
    sendOtpGuard "1234567890" = true ∧
    "1234567890".length = 10 ∧
    (∀ c ∈ "1234567890".toList, c.isDigit) ∧
    verifyOtpGuard (sanitizeOtp "12a3456") = true ∧
    (sanitizeOtp "12a3456").length = 6 := by
  have h1 : sendOtpGuard "1234567890" = true := by decide
  have h2 := login_guards_wellformed.2.1 "1234567890"
    (PhoneReachable.demo "1234567890" (by simp [demoPhones])) h1
  have h3 : verifyOtpGuard (sanitizeOtp "12a3456") = true := by decide
  have h4 := login_guards_wellformed.2.2 (sanitizeOtp "12a3456")
    (OtpReachable.typed "12a3456") h3
  exact ⟨h1, h2.1, h2.2, h3, h4.1⟩

end AMEWS
